import Mathlib

/-!
# GlUtil: graphics resource utilities (src/GlUtil.cpp)

A shallow embedding of `GlUtil.cpp`.  Every `Gl::` entry point and the logger are
external collaborators, so they are modelled as an arbitrary deterministic
`Driver`: each call is appended to a trace, and whatever the driver hands back
(an error flag, a generated handle, a status word, an info log) is a function of
the trace so far.  The theorems quantify over every such driver.

* `GLuint`, `GLenum`  are `Nat`; `GLsizei`, `GLint` are `Int`.  No arithmetic of
  the embedded functions can overflow: the only arithmetic is the division in
  `Texture::setData` (by a value in 1, 2, 4) and the loop counter `y`, which
  stays below `height`.
* A `const GLvoid*` is an integer address (`NULL` is 0); `p += pitch` is address
  arithmetic.
* `float` values are only stored, never computed with; they are rationals.
* The enum values are those of the OpenGL and libretro headers.
-/

namespace GlUtil

/-! ## Constants of the OpenGL / libretro headers -/

def GL_FALSE : Int := 0
def GL_BYTE : Nat := 0x1400
def GL_UNSIGNED_BYTE : Nat := 0x1401
def GL_SHORT : Nat := 0x1402
def GL_UNSIGNED_SHORT : Nat := 0x1403
def GL_INT : Nat := 0x1404
def GL_UNSIGNED_INT : Nat := 0x1405
def GL_FLOAT : Nat := 0x1406
def GL_HALF_FLOAT : Nat := 0x140B
def GL_UNSIGNED_BYTE_3_3_2 : Nat := 0x8032
def GL_UNSIGNED_SHORT_4_4_4_4 : Nat := 0x8033
def GL_UNSIGNED_SHORT_5_5_5_1 : Nat := 0x8034
def GL_UNSIGNED_INT_8_8_8_8 : Nat := 0x8035
def GL_UNSIGNED_INT_10_10_10_2 : Nat := 0x8036
def GL_UNSIGNED_BYTE_2_3_3_REV : Nat := 0x8362
def GL_UNSIGNED_SHORT_5_6_5 : Nat := 0x8363
def GL_UNSIGNED_SHORT_5_6_5_REV : Nat := 0x8364
def GL_UNSIGNED_SHORT_4_4_4_4_REV : Nat := 0x8365
def GL_UNSIGNED_SHORT_1_5_5_5_REV : Nat := 0x8366
def GL_UNSIGNED_INT_8_8_8_8_REV : Nat := 0x8367
def GL_UNSIGNED_INT_2_10_10_10_REV : Nat := 0x8368
def GL_UNSIGNED_INT_24_8 : Nat := 0x84FA
def GL_UNSIGNED_INT_10F_11F_11F_REV : Nat := 0x8C3B
def GL_UNSIGNED_INT_5_9_9_9_REV : Nat := 0x8C3E
def GL_FLOAT_32_UNSIGNED_INT_24_8_REV : Nat := 0x8DAD

def GL_RED : Nat := 0x1903
def GL_NEAREST : Nat := 0x2600
def GL_LINEAR : Nat := 0x2601
def GL_TEXTURE_2D : Nat := 0x0DE1
def GL_TEXTURE_MAG_FILTER : Nat := 0x2800
def GL_TEXTURE_MIN_FILTER : Nat := 0x2801
def GL_VERTEX_SHADER : Nat := 0x8B31
def GL_FRAGMENT_SHADER : Nat := 0x8B30
def GL_COMPILE_STATUS : Nat := 0x8B81
def GL_LINK_STATUS : Nat := 0x8B82
def GL_FRAMEBUFFER : Nat := 0x8D40
def GL_RENDERBUFFER : Nat := 0x8D41
def GL_COLOR_ATTACHMENT0 : Nat := 0x8CE0
def GL_DEPTH_ATTACHMENT : Nat := 0x8D00
def GL_DEPTH_STENCIL_ATTACHMENT : Nat := 0x821A
def GL_DEPTH24_STENCIL8 : Nat := 0x88F0
def GL_DEPTH_COMPONENT24 : Nat := 0x81A6
def GL_FRAMEBUFFER_COMPLETE : Nat := 0x8CD5
def GL_COLOR_BUFFER_BIT : Nat := 0x4000
def GL_ARRAY_BUFFER : Nat := 0x8892
def GL_STATIC_DRAW : Nat := 0x88E4
def RETRO_LOG_ERROR : Nat := 3

/-! ## Data model -/

/-- Floats are carried around unchanged by this module; a rational stands for one. -/
abbrev GLfloat := ℚ

/-- Modelled from the spec: the `Vertex` record of `GlUtil.h` (absent), a
`(position, uv)` layout of 4 floats. -/
structure Vertex where
  x : GLfloat
  y : GLfloat
  u : GLfloat
  v : GLfloat
  deriving DecidableEq

/-- Modelled from the spec: `sizeof(Vertex)` for the absent `Vertex` record,
4 floats of 4 bytes. -/
def sizeofVertex : Nat := 4 * 4

/-- One call made to the driver binding layer (`Gl::...`) or to the logger, with
its arguments.  Out-pointers are not recorded: what the driver stores through them
is the `Driver` answer. -/
inductive Call where
  | ok
  | genTextures (n : Int)
  | bindTexture (target texture : Nat)
  | texParameteri (target pname param : Nat)
  | texImage2D (target : Nat) (level internalFormat width height border : Int) (format type : Nat)
      (pixels : Int)
  | texSubImage2D (target : Nat) (level xoffset yoffset width height : Int) (format type : Nat)
      (pixels : Int)
  | deleteTextures (n : Int) (texture : Nat)
  | createShader (shaderType : Nat)
  | shaderSource (shader : Nat) (count : Int) (source : String)
  | compileShader (shader : Nat)
  | getShaderiv (shader pname : Nat)
  | getShaderInfoLog (shader : Nat) (bufSize : Int)
  | deleteShader (shader : Nat)
  | createProgram
  | attachShader (program shader : Nat)
  | linkProgram (program : Nat)
  | validateProgram (program : Nat)
  | getProgramiv (program pname : Nat)
  | getProgramInfoLog (program : Nat) (bufSize : Int)
  | deleteProgram (program : Nat)
  | genFramebuffers (n : Int)
  | bindFramebuffer (target framebuffer : Nat)
  | framebufferTexture2D (target attachment textarget texture : Nat) (level : Int)
  | genRenderbuffers (n : Int)
  | bindRenderbuffer (target renderbuffer : Nat)
  | renderbufferStorage (target internalformat : Nat) (width height : Int)
  | framebufferRenderbuffer (target attachment renderbuffertarget renderbuffer : Nat)
  | checkFramebufferStatus (target : Nat)
  | deleteRenderbuffers (n : Int) (renderbuffer : Nat)
  | deleteFramebuffers (n : Int) (framebuffer : Nat)
  | clearColor (r g b a : GLfloat)
  | clear (mask : Nat)
  | genBuffers (n : Int)
  | bindBuffer (target buffer : Nat)
  | bufferData (target size : Nat) (data : List Vertex) (usage : Nat)
  | deleteBuffers (n : Int) (buffer : Nat)
  | loggerPrintf (logger level : Nat) (fmt arg : String)
  deriving DecidableEq

/-- The external driver binding layer: every answer it gives is a function of the
calls made so far (the last of which is the call being answered).  For an
in/out pointer whose target holds a defined value, the answer is also a function
of that value. -/
structure Driver where
  ok : List Call → Bool
  genTextures : List Call → Nat
  createShader : List Call → Nat
  getShaderiv : List Call → Int
  getShaderInfoLog : List Call → String
  createProgram : List Call → Nat
  getProgramiv : List Call → Int
  getProgramInfoLog : List Call → String
  genFramebuffers : List Call → Nat
  genRenderbuffers : List Call → Nat → Nat
  checkFramebufferStatus : List Call → Nat
  genBuffers : List Call → Nat → Nat

/-- The state outside the wrappers: the injected logger (`s_logger`) and the calls
made so far. -/
structure World where
  s_logger : Nat
  trace : List Call
  deriving DecidableEq

/-- Make one call. -/
def emit (c : Call) (w : World) : World :=
  { w with trace := w.trace ++ [c] }

/-- `GlUtil::init`. -/
def init (logger : Nat) (w : World) : World :=
  { w with s_logger := logger }

/-- `Gl::ok()`. -/
def glOk (d : Driver) (w : World) : Bool × World :=
  let w1 := emit Call.ok w
  (d.ok w1.trace, w1)

/-- What stops a run of the embedded code short of its end. -/
inductive Fault where
  | divisionByZero
  deriving DecidableEq

/-! ## Texture -/

structure Texture where
  _texture : Nat
  _width : Int
  _height : Int
  _internalFormat : Int
  deriving DecidableEq

namespace Texture

/-- `GlUtil::Texture::bpp`. -/
def bpp (type : Nat) : Int :=
  if type = GL_UNSIGNED_BYTE ∨ type = GL_BYTE ∨ type = GL_UNSIGNED_BYTE_3_3_2
      ∨ type = GL_UNSIGNED_BYTE_2_3_3_REV then 1
  else if type = GL_UNSIGNED_SHORT ∨ type = GL_SHORT ∨ type = GL_HALF_FLOAT
      ∨ type = GL_UNSIGNED_SHORT_5_6_5 ∨ type = GL_UNSIGNED_SHORT_5_6_5_REV
      ∨ type = GL_UNSIGNED_SHORT_4_4_4_4 ∨ type = GL_UNSIGNED_SHORT_4_4_4_4_REV
      ∨ type = GL_UNSIGNED_SHORT_5_5_5_1 ∨ type = GL_UNSIGNED_SHORT_1_5_5_5_REV then 2
  else if type = GL_UNSIGNED_INT ∨ type = GL_INT ∨ type = GL_FLOAT
      ∨ type = GL_UNSIGNED_INT_8_8_8_8 ∨ type = GL_UNSIGNED_INT_8_8_8_8_REV
      ∨ type = GL_UNSIGNED_INT_10_10_10_2 ∨ type = GL_UNSIGNED_INT_2_10_10_10_REV
      ∨ type = GL_UNSIGNED_INT_24_8 ∨ type = GL_UNSIGNED_INT_10F_11F_11F_REV
      ∨ type = GL_UNSIGNED_INT_5_9_9_9_REV ∨ type = GL_FLOAT_32_UNSIGNED_INT_24_8_REV then 4
  else 0

/-- `GlUtil::Texture::bind`. -/
def bind (t : Texture) (w : World) : World :=
  emit (Call.bindTexture GL_TEXTURE_2D t._texture) w

/-- `GlUtil::Texture::destroy`. -/
def destroy (t : Texture) (w : World) : Texture × World :=
  if t._texture ≠ 0 then
    ({ t with _texture := 0 }, emit (Call.deleteTextures 1 t._texture) w)
  else (t, w)

/-- The row loop of `GlUtil::Texture::setData`:
`for (y; y < height; y++, p += pitch) texSubImage2D(.., 0, y, width, 1, .., p)`. -/
def setDataRows (width height pitch : Int) (format type : Nat) (y p : Int) (w : World) : World :=
  if y < height then
    setDataRows width height pitch format type (y + 1) (p + pitch)
      (emit (Call.texSubImage2D GL_TEXTURE_2D 0 0 y width 1 format type p) w)
  else w
termination_by (height - y).toNat
decreasing_by omega

/-- `GlUtil::Texture::setData`.  The division `pitch / bpp(type)` is guarded: a zero
divisor stops the run with `Fault.divisionByZero`, in the state reached so far. -/
def setData (t : Texture) (width height pitch : Int) (format type : Nat) (pixels : Int)
    (w : World) : Except Fault Unit × World :=
  let w1 := t.bind w
  if bpp type = 0 then (Except.error Fault.divisionByZero, w1)
  else
    let w_ := Int.tdiv pitch (bpp type)
    if w_ = t._width ∧ height ≤ t._height then
      (Except.ok (), emit (Call.texSubImage2D GL_TEXTURE_2D 0 0 0 w_ height format type pixels) w1)
    else
      let p := pixels
      let height1 := if height > t._height then t._height else height
      (Except.ok (), setDataRows width height1 pitch format type 0 p w1)

end Texture

/-! ## Resource creation functions -/

/-- `GlUtil::createTexture`. -/
def createTexture (d : Driver) (width height internalFormat : Int) (format type filter : Nat)
    (w : World) : Nat × World :=
  let (ok0, w) := glOk d w
  if !ok0 then (0, w)
  else
    let w := emit (Call.genTextures 1) w
    let texture := d.genTextures w.trace
    let w := emit (Call.bindTexture GL_TEXTURE_2D texture) w
    let w := emit (Call.texParameteri GL_TEXTURE_2D GL_TEXTURE_MIN_FILTER filter) w
    let w := emit (Call.texParameteri GL_TEXTURE_2D GL_TEXTURE_MAG_FILTER filter) w
    let w := emit (Call.texImage2D GL_TEXTURE_2D 0 internalFormat width height 0 format type 0) w
    let (ok1, w) := glOk d w
    if !ok1 then
      (0, emit (Call.deleteTextures 1 texture) w)
    else (texture, w)

/-- `GlUtil::createShader`. -/
def createShader (d : Driver) (shaderType : Nat) (source : String) (w : World) : Nat × World :=
  let (ok0, w) := glOk d w
  if !ok0 then (0, w)
  else
    let w := emit (Call.createShader shaderType) w
    let shader := d.createShader w.trace
    let w := emit (Call.shaderSource shader 1 source) w
    let w := emit (Call.compileShader shader) w
    let w := emit (Call.getShaderiv shader GL_COMPILE_STATUS) w
    let status := d.getShaderiv w.trace
    if status = GL_FALSE then
      let w := emit (Call.getShaderInfoLog shader 4096) w
      let buffer := d.getShaderInfoLog w.trace
      let w := emit (Call.loggerPrintf w.s_logger RETRO_LOG_ERROR "Error in shader: %s" buffer) w
      let w := emit (Call.deleteShader shader) w
      (0, w)
    else
      let (ok1, w) := glOk d w
      if !ok1 then
        (0, emit (Call.deleteShader shader) w)
      else (shader, w)

/-- `GlUtil::createProgram`. -/
def createProgram (d : Driver) (vertexShader fragmentShader : String) (w : World) : Nat × World :=
  let (ok0, w) := glOk d w
  if !ok0 then (0, w)
  else
    let (vs, w) := createShader d GL_VERTEX_SHADER vertexShader w
    let (fs, w) := createShader d GL_FRAGMENT_SHADER fragmentShader w
    let w := emit Call.createProgram w
    let program := d.createProgram w.trace
    let w := emit (Call.attachShader program vs) w
    let w := emit (Call.attachShader program fs) w
    let w := emit (Call.linkProgram program) w
    let w := emit (Call.deleteShader vs) w
    let w := emit (Call.deleteShader fs) w
    let w := emit (Call.validateProgram program) w
    let w := emit (Call.getProgramiv program GL_LINK_STATUS) w
    let status := d.getProgramiv w.trace
    if status = GL_FALSE then
      let w := emit (Call.getProgramInfoLog program 4096) w
      let buffer := d.getProgramInfoLog w.trace
      let w := emit (Call.loggerPrintf w.s_logger RETRO_LOG_ERROR "Error in shader program: %s" buffer) w
      let w := emit (Call.deleteProgram program) w
      (0, w)
    else
      let (ok1, w) := glOk d w
      if !ok1 then
        (0, emit (Call.deleteProgram program) w)
      else (program, w)

/-- `GlUtil::createFramebuffer`.  The argument `renderbuffer` is the content of the
out slot at entry; the result is the returned handle, the content of the slot at
exit, and the state.  On an incomplete framebuffer the source guards
`deleteRenderbuffers` with `renderbuffer != 0`, a test of the pointer itself;
the pointer has been written through by then, so the guard holds on every run
that reaches it. -/
def createFramebuffer (d : Driver) (renderbuffer : Nat) (width height : Int) (texture : Nat)
    (depth stencil : Bool) (w : World) : Nat × Nat × World :=
  let (ok0, w) := glOk d w
  if !ok0 then (0, renderbuffer, w)
  else
    let w := emit (Call.genFramebuffers 1) w
    let framebuffer := d.genFramebuffers w.trace
    let w := emit (Call.bindFramebuffer GL_FRAMEBUFFER framebuffer) w
    let w := emit (Call.framebufferTexture2D GL_FRAMEBUFFER GL_COLOR_ATTACHMENT0 GL_TEXTURE_2D
      texture 0) w
    let renderbuffer := 0
    let (renderbuffer, w) :=
      if depth && stencil then
        let w := emit (Call.genRenderbuffers 1) w
        let renderbuffer := d.genRenderbuffers w.trace renderbuffer
        let w := emit (Call.bindRenderbuffer GL_RENDERBUFFER renderbuffer) w
        let w := emit (Call.renderbufferStorage GL_RENDERBUFFER GL_DEPTH24_STENCIL8 width height) w
        let w := emit (Call.framebufferRenderbuffer GL_FRAMEBUFFER GL_DEPTH_STENCIL_ATTACHMENT
          GL_RENDERBUFFER renderbuffer) w
        let w := emit (Call.bindRenderbuffer GL_RENDERBUFFER 0) w
        (renderbuffer, w)
      else if depth then
        let w := emit (Call.genRenderbuffers 1) w
        let renderbuffer := d.genRenderbuffers w.trace renderbuffer
        let w := emit (Call.bindRenderbuffer GL_RENDERBUFFER renderbuffer) w
        let w := emit (Call.renderbufferStorage GL_RENDERBUFFER GL_DEPTH_COMPONENT24 width height) w
        let w := emit (Call.framebufferRenderbuffer GL_FRAMEBUFFER GL_DEPTH_ATTACHMENT
          GL_RENDERBUFFER renderbuffer) w
        let w := emit (Call.bindRenderbuffer GL_RENDERBUFFER 0) w
        (renderbuffer, w)
      else (renderbuffer, w)
    let w := emit (Call.checkFramebufferStatus GL_FRAMEBUFFER) w
    if d.checkFramebufferStatus w.trace ≠ GL_FRAMEBUFFER_COMPLETE then
      let w := emit (Call.deleteRenderbuffers 1 renderbuffer) w
      let w := emit (Call.deleteFramebuffers 1 framebuffer) w
      (0, 0, w)
    else
      let w := emit (Call.clearColor 0 0 0 1) w
      let w := emit (Call.clear GL_COLOR_BUFFER_BIT) w
      let w := emit (Call.bindFramebuffer GL_FRAMEBUFFER 0) w
      (framebuffer, renderbuffer, w)

/-- `GlUtil::Texture::init`. -/
def Texture.init (d : Driver) (t : Texture) (width height internalFormat : Int)
    (linearFilter : Bool) (w : World) : Bool × Texture × World :=
  let (texture, w) := createTexture d width height internalFormat GL_RED GL_UNSIGNED_BYTE
    (if linearFilter then GL_LINEAR else GL_NEAREST) w
  let t := { t with _texture := texture }
  let t := { t with _width := width }
  let t := { t with _height := height }
  let t := { t with _internalFormat := internalFormat }
  (true, t, w)

/-! ## Program -/

structure Program where
  _program : Nat
  deriving DecidableEq

namespace Program

/-- `GlUtil::Program::init`. -/
def init (d : Driver) (p : Program) (vertexShader fragmentShader : String) (w : World) :
    Bool × Program × World :=
  let (program, w) := createProgram d vertexShader fragmentShader w
  let p := { p with _program := program }
  let (r, w) := glOk d w
  (r, p, w)

/-- `GlUtil::Program::destroy`. -/
def destroy (p : Program) (w : World) : Program × World :=
  if p._program ≠ 0 then
    ({ p with _program := 0 }, emit (Call.deleteProgram p._program) w)
  else (p, w)

end Program

/-! ## VertexBuffer and its specialisations -/

structure VertexBuffer where
  _vbo : Nat
  deriving DecidableEq

namespace VertexBuffer

/-- `GlUtil::VertexBuffer::init`. -/
def init (d : Driver) (b : VertexBuffer) (w : World) : Bool × VertexBuffer × World :=
  let w := emit (Call.genBuffers 1) w
  let b := { b with _vbo := d.genBuffers w.trace b._vbo }
  let (r, w) := glOk d w
  (r, b, w)

/-- `GlUtil::VertexBuffer::destroy`. -/
def destroy (b : VertexBuffer) (w : World) : VertexBuffer × World :=
  if b._vbo ≠ 0 then
    ({ b with _vbo := 0 }, emit (Call.deleteBuffers 1 b._vbo) w)
  else (b, w)

/-- `GlUtil::VertexBuffer::setData`. -/
def setData (d : Driver) (b : VertexBuffer) (data : List Vertex) (dataSize : Nat) (w : World) :
    Bool × World :=
  let w := emit (Call.bindBuffer GL_ARRAY_BUFFER b._vbo) w
  let w := emit (Call.bufferData GL_ARRAY_BUFFER dataSize data GL_STATIC_DRAW) w
  glOk d w

end VertexBuffer

structure TexturedQuad extends VertexBuffer
  deriving DecidableEq

namespace TexturedQuad

/-- `GlUtil::TexturedQuad::init(x0, y0, x1, y1, u0, v0, u1, v1)`. -/
def init (d : Driver) (q : TexturedQuad) (x0 y0 x1 y1 u0 v0 u1 v1 : GLfloat) (w : World) :
    Bool × TexturedQuad × World :=
  let (r, b, w) := VertexBuffer.init d q.toVertexBuffer w
  let q := { q with toVertexBuffer := b }
  if !r then (false, q, w)
  else
    let vertices : List Vertex := [
      ⟨x0, y0, u0, v1⟩,
      ⟨x0, y1, u0, v0⟩,
      ⟨x1, y0, u1, v1⟩,
      ⟨x1, y1, u1, v0⟩]
    let (_, w) := VertexBuffer.setData d q.toVertexBuffer vertices (4 * sizeofVertex) w
    (true, q, w)

/-- `GlUtil::TexturedQuad::init()`. -/
def initDefault (d : Driver) (q : TexturedQuad) (w : World) : Bool × TexturedQuad × World :=
  init d q (-1) (-1) 1 1 0 0 1 1 w

/-- `GlUtil::TexturedQuad::destroy`. -/
def destroy (q : TexturedQuad) (w : World) : TexturedQuad × World :=
  let (b, w) := VertexBuffer.destroy q.toVertexBuffer w
  ({ q with toVertexBuffer := b }, w)

end TexturedQuad

structure TexturedTriangleBatch extends VertexBuffer where
  _count : Nat
  deriving DecidableEq

namespace TexturedTriangleBatch

/-- `GlUtil::TexturedTriangleBatch::destroy`. -/
def destroy (q : TexturedTriangleBatch) (w : World) : TexturedTriangleBatch × World :=
  let (b, w) := VertexBuffer.destroy q.toVertexBuffer w
  ({ q with toVertexBuffer := b }, w)

end TexturedTriangleBatch

end GlUtil

namespace GlUtil

/-! ## Specification vocabulary -/

/-- The pixel types listed in the `switch` of `Texture::bpp`. -/
def bppTypes : List Nat :=
  [GL_UNSIGNED_BYTE, GL_BYTE, GL_UNSIGNED_BYTE_3_3_2, GL_UNSIGNED_BYTE_2_3_3_REV,
   GL_UNSIGNED_SHORT, GL_SHORT, GL_HALF_FLOAT, GL_UNSIGNED_SHORT_5_6_5,
   GL_UNSIGNED_SHORT_5_6_5_REV, GL_UNSIGNED_SHORT_4_4_4_4, GL_UNSIGNED_SHORT_4_4_4_4_REV,
   GL_UNSIGNED_SHORT_5_5_5_1, GL_UNSIGNED_SHORT_1_5_5_5_REV,
   GL_UNSIGNED_INT, GL_INT, GL_FLOAT, GL_UNSIGNED_INT_8_8_8_8, GL_UNSIGNED_INT_8_8_8_8_REV,
   GL_UNSIGNED_INT_10_10_10_2, GL_UNSIGNED_INT_2_10_10_10_REV, GL_UNSIGNED_INT_24_8,
   GL_UNSIGNED_INT_10F_11F_11F_REV, GL_UNSIGNED_INT_5_9_9_9_REV,
   GL_FLOAT_32_UNSIGNED_INT_24_8_REV]

/-- Is this call a pixel upload (`texSubImage2D`)? -/
def Call.isUpload : Call → Bool
  | Call.texSubImage2D .. => true
  | _ => false

/-- Is this call a logger message? -/
def Call.isLoggerPrintf : Call → Bool
  | Call.loggerPrintf .. => true
  | _ => false

/-- Is this call a `deleteShader`? -/
def Call.isDeleteShader : Call → Bool
  | Call.deleteShader _ => true
  | _ => false

/-- Is this call a `genRenderbuffers`? -/
def Call.isGenRenderbuffers : Call → Bool
  | Call.genRenderbuffers _ => true
  | _ => false

/-- The calls made by a run that started with `before` made and ended with `after`. -/
def newCalls (before after : World) : List Call :=
  after.trace.drop before.trace.length

/-- The row uploads of the slow path of `setData`: row `y` is taken at
`pixels + y * pitch` and written at offset `(0, y)`, `width` wide and one row high. -/
def rowUploads (width pitch : Int) (format type : Nat) (pixels : Int) (rows : Nat) : List Call :=
  (List.range rows).map fun y : Nat =>
    Call.texSubImage2D GL_TEXTURE_2D 0 0 y width 1 format type (pixels + y * pitch)

/-- A sample driver: the error check answers `noError`, every generated handle is the
number of calls made so far, every compile, link and completeness status is `status`,
and every info log is `log`. -/
def sampleDriver (noError : Bool) (status : Nat) (log : String) : Driver where
  ok := fun _ => noError
  genTextures := fun calls => calls.length
  createShader := fun calls => calls.length
  getShaderiv := fun _ => status
  getShaderInfoLog := fun _ => log
  createProgram := fun calls => calls.length
  getProgramiv := fun _ => status
  getProgramInfoLog := fun _ => log
  genFramebuffers := fun calls => calls.length
  genRenderbuffers := fun calls _ => calls.length
  checkFramebufferStatus := fun _ => status
  genBuffers := fun calls _ => calls.length

/-! ## Texture.bpp -/

theorem bpp_pos_of_mem : ∀ type ∈ bppTypes, 0 < Texture.bpp type := by
  decide

theorem bpp_eq_zero_of_not_mem (type : Nat) (h : type ∉ bppTypes) : Texture.bpp type = 0 := by
  simp only [bppTypes, List.mem_cons, List.mem_singleton, List.not_mem_nil, or_false,
    not_or] at h
  simp [Texture.bpp, h]

theorem bpp_values (type : Nat) :
    Texture.bpp type = 0 ∨ Texture.bpp type = 1 ∨ Texture.bpp type = 2
      ∨ Texture.bpp type = 4 := by
  unfold Texture.bpp
  split_ifs <;> simp

theorem bpp_eq_zero_iff (type : Nat) : Texture.bpp type = 0 ↔ type ∉ bppTypes := by
  constructor
  · intro h hm
    have := bpp_pos_of_mem type hm
    omega
  · exact bpp_eq_zero_of_not_mem type

theorem bpp_pos_iff (type : Nat) : 0 < Texture.bpp type ↔ type ∈ bppTypes := by
  constructor
  · intro h
    by_contra hm
    have := bpp_eq_zero_of_not_mem type hm
    omega
  · exact bpp_pos_of_mem type

/-- C6: `Texture.bpp` returns 1 for the four byte-sized types, 2 for the short,
half-float and six packed 16-bit types, 4 for the int, float and eight packed types of
the last group, 0 for every other enum value, and nothing but 0, 1, 2 or 4. -/
theorem bpp_table :
    (Texture.bpp GL_UNSIGNED_BYTE = 1 ∧ Texture.bpp GL_BYTE = 1
      ∧ Texture.bpp GL_UNSIGNED_BYTE_3_3_2 = 1 ∧ Texture.bpp GL_UNSIGNED_BYTE_2_3_3_REV = 1)
    ∧ (Texture.bpp GL_UNSIGNED_SHORT = 2 ∧ Texture.bpp GL_SHORT = 2
      ∧ Texture.bpp GL_HALF_FLOAT = 2 ∧ Texture.bpp GL_UNSIGNED_SHORT_5_6_5 = 2
      ∧ Texture.bpp GL_UNSIGNED_SHORT_5_6_5_REV = 2 ∧ Texture.bpp GL_UNSIGNED_SHORT_4_4_4_4 = 2
      ∧ Texture.bpp GL_UNSIGNED_SHORT_4_4_4_4_REV = 2 ∧ Texture.bpp GL_UNSIGNED_SHORT_5_5_5_1 = 2
      ∧ Texture.bpp GL_UNSIGNED_SHORT_1_5_5_5_REV = 2)
    ∧ (Texture.bpp GL_UNSIGNED_INT = 4 ∧ Texture.bpp GL_INT = 4 ∧ Texture.bpp GL_FLOAT = 4
      ∧ Texture.bpp GL_UNSIGNED_INT_8_8_8_8 = 4 ∧ Texture.bpp GL_UNSIGNED_INT_8_8_8_8_REV = 4
      ∧ Texture.bpp GL_UNSIGNED_INT_10_10_10_2 = 4
      ∧ Texture.bpp GL_UNSIGNED_INT_2_10_10_10_REV = 4 ∧ Texture.bpp GL_UNSIGNED_INT_24_8 = 4
      ∧ Texture.bpp GL_UNSIGNED_INT_10F_11F_11F_REV = 4
      ∧ Texture.bpp GL_UNSIGNED_INT_5_9_9_9_REV = 4
      ∧ Texture.bpp GL_FLOAT_32_UNSIGNED_INT_24_8_REV = 4)
    ∧ (∀ type : Nat, type ∉ bppTypes → Texture.bpp type = 0)
    ∧ (∀ type : Nat, Texture.bpp type = 0 ∨ Texture.bpp type = 1 ∨ Texture.bpp type = 2
        ∨ Texture.bpp type = 4) := by
  refine ⟨by decide, by decide, by decide, ?_, ?_⟩
  · exact bpp_eq_zero_of_not_mem
  · exact bpp_values

theorem bpp_table_witness : 0x1407 ∉ bppTypes ∧ Texture.bpp 0x1407 = 0 :=
  ⟨by decide, bpp_table.2.2.2.1 0x1407 (by decide)⟩

/-! ## Texture.setData -/

theorem setDataRows_eq (width height pitch : Int) (format type : Nat) :
    ∀ (n : Nat) (y p : Int) (w : World), (height - y).toNat = n →
      Texture.setDataRows width height pitch format type y p w =
        { w with trace := w.trace ++ (List.range n).map fun i : Nat =>
            Call.texSubImage2D GL_TEXTURE_2D 0 0 (y + i) width 1 format type (p + i * pitch) } := by
  intro n
  induction n with
  | zero =>
    intro y p w h
    rw [Texture.setDataRows]
    have hy : ¬ y < height := by omega
    simp [hy]
  | succ n ih =>
    intro y p w h
    rw [Texture.setDataRows]
    have hy : y < height := by omega
    rw [if_pos hy, ih (y + 1) (p + pitch) _ (by omega)]
    simp only [emit, List.range_succ_eq_map, List.map_cons, List.map_map, List.append_assoc,
      List.singleton_append, World.mk.injEq, true_and, List.append_cancel_left_eq,
      List.cons.injEq]
    refine ⟨by simp, ?_⟩
    apply List.map_congr_left
    intro i _
    simp only [Function.comp_apply, Nat.succ_eq_add_one, Nat.cast_add, Nat.cast_one]
    congr 1 <;> ring

/-- What `setData` does for a known pixel type: bind, then either the single bulk
upload or the clamped row uploads. -/
theorem setData_run (t : Texture) (width height pitch : Int) (format type : Nat) (pixels : Int)
    (w : World) (hb : 0 < Texture.bpp type) :
    Texture.setData t width height pitch format type pixels w =
      (Except.ok (), { w with trace := w.trace ++ Call.bindTexture GL_TEXTURE_2D t._texture ::
        (if Int.tdiv pitch (Texture.bpp type) = t._width ∧ height ≤ t._height then
          [Call.texSubImage2D GL_TEXTURE_2D 0 0 0 (Int.tdiv pitch (Texture.bpp type)) height
            format type pixels]
        else rowUploads width pitch format type pixels (max 0 (min height t._height)).toNat) }) := by
  have hb0 : Texture.bpp type ≠ 0 := by omega
  unfold Texture.setData
  simp only [hb0, if_false]
  by_cases hf : Int.tdiv pitch (Texture.bpp type) = t._width ∧ height ≤ t._height
  · simp [hf, Texture.bind, emit]
  · simp only [hf, if_false]
    rw [setDataRows_eq width _ pitch format type
      (max 0 (min height t._height)).toNat 0 pixels _ (by split_ifs <;> omega)]
    simp [Texture.bind, emit, rowUploads]

theorem countP_isUpload_rowUploads (width pitch : Int) (format type : Nat) (pixels : Int)
    (rows : Nat) :
    (rowUploads width pitch format type pixels rows).countP Call.isUpload = rows := by
  simp [rowUploads, List.countP_map, Function.comp_def, Call.isUpload]

theorem emit_trace (c : Call) (w : World) : (emit c w).trace = w.trace ++ [c] := rfl

theorem emit_s_logger (c : Call) (w : World) : (emit c w).s_logger = w.s_logger := rfl

theorem newCalls_append (w : World) (cs : List Call) :
    newCalls w { w with trace := w.trace ++ cs } = cs := by
  simp [newCalls]

/-- C1: for a known pixel type, `setData` binds the texture and then, when
`pitch / bpp(type)` equals the stored width and `height` is at most the stored height,
issues exactly one upload at offset (0, 0), `pitch / bpp(type)` wide and `height` rows
high, from `pixels`; otherwise it issues exactly `max 0 (min height H)` uploads, the y-th
at offset (0, y), one row high, `width` wide, from `pixels + y * pitch`.  No upload reaches
a row index at or beyond the stored height. -/
theorem setData_uploads (t : Texture) (width height pitch : Int) (format type : Nat)
    (pixels : Int) (w : World) (hb : 0 < Texture.bpp type) :
    Texture.setData t width height pitch format type pixels w =
      (Except.ok (), { w with trace := w.trace ++ Call.bindTexture GL_TEXTURE_2D t._texture ::
        (if Int.tdiv pitch (Texture.bpp type) = t._width ∧ height ≤ t._height then
          [Call.texSubImage2D GL_TEXTURE_2D 0 0 0 (Int.tdiv pitch (Texture.bpp type)) height
            format type pixels]
        else (List.range (max 0 (min height t._height)).toNat).map fun y : Nat =>
          Call.texSubImage2D GL_TEXTURE_2D 0 0 y width 1 format type (pixels + y * pitch)) })
    ∧ ∀ (target : Nat) (level xoffset yoffset wd ht : Int) (fmt ty : Nat) (px : Int),
        Call.texSubImage2D target level xoffset yoffset wd ht fmt ty px ∈
            newCalls w (Texture.setData t width height pitch format type pixels w).2 →
          0 ≤ yoffset ∧ yoffset + ht ≤ t._height := by
  rw [setData_run t width height pitch format type pixels w hb]
  refine ⟨rfl, ?_⟩
  intro target level xoffset yoffset wd ht fmt ty px hmem
  rw [newCalls_append] at hmem
  by_cases hf : Int.tdiv pitch (Texture.bpp type) = t._width ∧ height ≤ t._height
  · simp only [hf, and_self, if_true, List.mem_cons, List.mem_singleton, List.not_mem_nil,
      or_false, false_or, reduceCtorEq, Call.texSubImage2D.injEq] at hmem
    obtain ⟨-, -, -, hy, -, hh, -⟩ := hmem
    omega
  · simp only [hf, if_false, rowUploads, List.mem_cons, List.mem_map, List.mem_range,
      reduceCtorEq, false_or, Call.texSubImage2D.injEq] at hmem
    obtain ⟨y, hy, -, -, -, hyo, -, hh, -⟩ := hmem
    omega

theorem setData_uploads_witness :
    0 < Texture.bpp GL_UNSIGNED_SHORT_5_6_5
    ∧ (Texture.setData ⟨7, 320, 2, 0⟩ 256 5 1024 0 GL_UNSIGNED_SHORT_5_6_5 4096 ⟨1, []⟩).2.trace =
      [Call.bindTexture GL_TEXTURE_2D 7,
        Call.texSubImage2D GL_TEXTURE_2D 0 0 0 256 1 0 GL_UNSIGNED_SHORT_5_6_5 4096,
        Call.texSubImage2D GL_TEXTURE_2D 0 0 1 256 1 0 GL_UNSIGNED_SHORT_5_6_5 5120] := by
  refine ⟨by decide, ?_⟩
  rw [(setData_uploads ⟨7, 320, 2, 0⟩ 256 5 1024 0 GL_UNSIGNED_SHORT_5_6_5 4096 ⟨1, []⟩
    (by decide)).1]
  decide

/-- C5, as stated, fails twice.  Stored size 4 x 4, byte pixels.  First, a call with
`width = 2`, `height = 2`, `pitch = 2 = width * bpp` and `height <= 4` makes two
uploads, not one: the fast path compares the row width with the stored width 4.
Second, a call with `width = 2`, `height = 3`, `pitch = 4 > width * bpp` makes one
upload, not `min height 4 = 3`: the padded pitch gives the row width 4, the stored
width, and the fast path is taken. -/
theorem setData_count_counterexample :
    (0 < Texture.bpp GL_UNSIGNED_BYTE
      ∧ (2 : Int) = 2 * Texture.bpp GL_UNSIGNED_BYTE ∧ (2 : Int) ≤ 4
      ∧ (newCalls ⟨0, []⟩ (Texture.setData ⟨5, 4, 4, 0⟩ 2 2 2 GL_RED GL_UNSIGNED_BYTE 1000
          ⟨0, []⟩).2).countP Call.isUpload = 2)
    ∧ ((4 : Int) > 2 * Texture.bpp GL_UNSIGNED_BYTE
      ∧ min (3 : Int) 4 = 3
      ∧ (newCalls ⟨0, []⟩ (Texture.setData ⟨5, 4, 4, 0⟩ 2 3 4 GL_RED GL_UNSIGNED_BYTE 1000
          ⟨0, []⟩).2).countP Call.isUpload = 1) := by
  rw [setData_run _ _ _ _ _ _ _ _ (by decide), setData_run _ _ _ _ _ _ _ _ (by decide)]
  decide

/-- C5, amended: for a known pixel type, if `pitch = width * bpp(type)`, `width` is the
stored width and `height` is at most the stored height, `setData` makes exactly one
upload; if `pitch > width * bpp(type)` and the fast path is not taken (that is, not both
`pitch / bpp(type)` equal to the stored width and `height` at most the stored height),
it makes `max 0 (min height H)` row uploads: `height` of them when `0 <= height <= H`,
and `H` of them when `height > H >= 0`. -/
theorem setData_upload_count (t : Texture) (width height pitch : Int) (format type : Nat)
    (pixels : Int) (w : World) (hb : 0 < Texture.bpp type) :
    (pitch = width * Texture.bpp type ∧ width = t._width ∧ height ≤ t._height →
      (newCalls w (Texture.setData t width height pitch format type pixels w).2).countP
        Call.isUpload = 1)
    ∧ (pitch > width * Texture.bpp type
        ∧ ¬ (Int.tdiv pitch (Texture.bpp type) = t._width ∧ height ≤ t._height) →
      ((newCalls w (Texture.setData t width height pitch format type pixels w).2).countP
          Call.isUpload : Int) = max 0 (min height t._height)
      ∧ (0 ≤ height ∧ height ≤ t._height →
          ((newCalls w (Texture.setData t width height pitch format type pixels w).2).countP
            Call.isUpload : Int) = height)
      ∧ (height > t._height ∧ t._height ≥ 0 →
          ((newCalls w (Texture.setData t width height pitch format type pixels w).2).countP
            Call.isUpload : Int) = t._height)) := by
  rw [setData_run t width height pitch format type pixels w hb, newCalls_append]
  constructor
  · rintro ⟨hp, hw, hh⟩
    have hdiv : Int.tdiv pitch (Texture.bpp type) = t._width := by
      rw [hp, Int.mul_tdiv_cancel _ (by omega), hw]
    simp [hdiv, hh, Call.isUpload]
  · rintro ⟨-, hf⟩
    simp only [hf, if_false, List.countP_cons, countP_isUpload_rowUploads, Call.isUpload]
    simp only [Bool.false_eq_true, ↓reduceIte, add_zero]
    refine ⟨by omega, ?_, ?_⟩ <;> intro h <;> omega

theorem setData_upload_count_witness :
    (0 < Texture.bpp GL_UNSIGNED_BYTE)
    ∧ ((newCalls ⟨0, []⟩ (Texture.setData ⟨5, 4, 4, 0⟩ 4 3 4 GL_RED GL_UNSIGNED_BYTE 1000
          ⟨0, []⟩).2).countP Call.isUpload = 1)
    ∧ (((newCalls ⟨0, []⟩ (Texture.setData ⟨5, 4, 4, 0⟩ 4 6 8 GL_RED GL_UNSIGNED_BYTE 1000
          ⟨0, []⟩).2).countP Call.isUpload : Int) = 4) :=
  ⟨by decide,
   (setData_upload_count ⟨5, 4, 4, 0⟩ 4 3 4 GL_RED GL_UNSIGNED_BYTE 1000 ⟨0, []⟩
      (by decide)).1 (by decide),
   ((setData_upload_count ⟨5, 4, 4, 0⟩ 4 6 8 GL_RED GL_UNSIGNED_BYTE 1000 ⟨0, []⟩
      (by decide)).2 (by decide)).2.2 (by decide)⟩

/-- C10: with the division of `setData` guarded, a pixel type with `bpp(type) > 0`
never reaches the division-by-zero branch, and a type outside the table of `bpp`
(exactly the types with `bpp(type) = 0`) reaches it for every width, height and pitch,
with the texture bound and no upload issued. -/
theorem setData_division_guard :
    (∀ type : Nat, 0 < Texture.bpp type →
      ∀ (t : Texture) (width height pitch : Int) (format : Nat) (pixels : Int) (w : World),
        (Texture.setData t width height pitch format type pixels w).1 = Except.ok ())
    ∧ (∀ type : Nat, type ∉ bppTypes ↔ Texture.bpp type = 0)
    ∧ (∀ type : Nat, Texture.bpp type = 0 →
      ∀ (t : Texture) (width height pitch : Int) (format : Nat) (pixels : Int) (w : World),
        Texture.setData t width height pitch format type pixels w =
          (Except.error Fault.divisionByZero,
            { w with trace := w.trace ++ [Call.bindTexture GL_TEXTURE_2D t._texture] })
        ∧ (newCalls w (Texture.setData t width height pitch format type pixels w).2).countP
            Call.isUpload = 0) := by
  refine ⟨?_, fun type => (bpp_eq_zero_iff type).symm, ?_⟩
  · intro type hb t width height pitch format pixels w
    rw [setData_run t width height pitch format type pixels w hb]
  · intro type hb t width height pitch format pixels w
    have h : Texture.setData t width height pitch format type pixels w =
        (Except.error Fault.divisionByZero,
          { w with trace := w.trace ++ [Call.bindTexture GL_TEXTURE_2D t._texture] }) := by
      simp [Texture.setData, hb, Texture.bind, emit]
    rw [h, newCalls_append]
    exact ⟨rfl, by simp [Call.isUpload]⟩

theorem setData_division_guard_witness :
    (0 < Texture.bpp GL_FLOAT
      ∧ (Texture.setData ⟨5, 4, 4, 0⟩ 4 4 16 GL_RED GL_FLOAT 1000 ⟨0, []⟩).1 = Except.ok ())
    ∧ (Texture.bpp 0x1407 = 0
      ∧ Texture.setData ⟨5, 4, 4, 0⟩ 4 4 16 GL_RED 0x1407 1000 ⟨0, []⟩ =
        (Except.error Fault.divisionByZero, ⟨0, [Call.bindTexture GL_TEXTURE_2D 5]⟩)) :=
  ⟨⟨by decide,
    setData_division_guard.1 GL_FLOAT (by decide) ⟨5, 4, 4, 0⟩ 4 4 16 GL_RED 1000 ⟨0, []⟩⟩,
   ⟨by decide,
    (setData_division_guard.2.2 0x1407 (by decide) ⟨5, 4, 4, 0⟩ 4 4 16 GL_RED 1000 ⟨0, []⟩).1⟩⟩

/-! ## Entry error check of the creation functions -/

/-- C2: when the error check at entry reports an error, each of `createTexture`,
`createShader`, `createProgram` and `createFramebuffer` returns 0 having made no call
but that check, whatever its arguments; `createFramebuffer` also leaves the out
renderbuffer slot as it was. -/
theorem create_entry_error (d : Driver) (w : World) (herr : d.ok (w.trace ++ [Call.ok]) = false) :
    (∀ (width height internalFormat : Int) (format type filter : Nat),
      createTexture d width height internalFormat format type filter w = (0, emit Call.ok w))
    ∧ (∀ (shaderType : Nat) (source : String),
      createShader d shaderType source w = (0, emit Call.ok w))
    ∧ (∀ vertexShader fragmentShader : String,
      createProgram d vertexShader fragmentShader w = (0, emit Call.ok w))
    ∧ (∀ (renderbuffer : Nat) (width height : Int) (texture : Nat) (depth stencil : Bool),
      createFramebuffer d renderbuffer width height texture depth stencil w =
        (0, renderbuffer, emit Call.ok w)) := by
  refine ⟨?_, ?_, ?_, ?_⟩
  · intros; simp [createTexture, glOk, emit, herr]
  · intros; simp [createShader, glOk, emit, herr]
  · intros; simp [createProgram, glOk, emit, herr]
  · intros; simp [createFramebuffer, glOk, emit, herr]

theorem create_entry_error_witness :
    (sampleDriver false 1 "").ok ([Call.bindTexture GL_TEXTURE_2D 3] ++ [Call.ok]) = false
    ∧ createTexture (sampleDriver false 1 "") 320 240 0 GL_RED GL_UNSIGNED_BYTE GL_NEAREST
        ⟨1, [Call.bindTexture GL_TEXTURE_2D 3]⟩ =
      (0, ⟨1, [Call.bindTexture GL_TEXTURE_2D 3, Call.ok]⟩)
    ∧ createFramebuffer (sampleDriver false 1 "") 9 320 240 3 true true
        ⟨1, [Call.bindTexture GL_TEXTURE_2D 3]⟩ =
      (0, 9, ⟨1, [Call.bindTexture GL_TEXTURE_2D 3, Call.ok]⟩) :=
  ⟨rfl,
   (create_entry_error (sampleDriver false 1 "") ⟨1, [Call.bindTexture GL_TEXTURE_2D 3]⟩
      rfl).1 320 240 0 GL_RED GL_UNSIGNED_BYTE GL_NEAREST,
   (create_entry_error (sampleDriver false 1 "") ⟨1, [Call.bindTexture GL_TEXTURE_2D 3]⟩
      rfl).2.2.2 9 320 240 3 true true⟩

/-! ## createShader -/

/-- C3: when the driver reports no error at entry and compile status `GL_FALSE` for
the shader it created, `createShader` returns 0 after exactly these calls: the error
check, `createShader`, `shaderSource`, `compileShader`, `getShaderiv`, one
`getShaderInfoLog` into a buffer of 4096 bytes, one logger message at `RETRO_LOG_ERROR`
carrying that buffer, and one `deleteShader` of the created handle, the last call. -/
theorem createShader_compile_failure (d : Driver) (w : World) (shaderType : Nat) (source : String)
    (hok : d.ok (w.trace ++ [Call.ok]) = true)
    (hstatus :
      d.getShaderiv (w.trace ++ [Call.ok, Call.createShader shaderType,
        Call.shaderSource (d.createShader (w.trace ++ [Call.ok, Call.createShader shaderType]))
          1 source,
        Call.compileShader (d.createShader (w.trace ++ [Call.ok, Call.createShader shaderType])),
        Call.getShaderiv (d.createShader (w.trace ++ [Call.ok, Call.createShader shaderType]))
          GL_COMPILE_STATUS]) = GL_FALSE) :
    let shader := d.createShader (w.trace ++ [Call.ok, Call.createShader shaderType])
    let compile := [Call.ok, Call.createShader shaderType, Call.shaderSource shader 1 source,
      Call.compileShader shader, Call.getShaderiv shader GL_COMPILE_STATUS,
      Call.getShaderInfoLog shader 4096]
    let buffer := d.getShaderInfoLog (w.trace ++ compile)
    let report := [Call.loggerPrintf w.s_logger RETRO_LOG_ERROR "Error in shader: %s" buffer,
      Call.deleteShader shader]
    createShader d shaderType source w = (0, { w with trace := w.trace ++ compile ++ report })
    ∧ (compile ++ report).countP Call.isLoggerPrintf = 1
    ∧ (compile ++ report).countP Call.isDeleteShader = 1
    ∧ (compile ++ report).getLast? = some (Call.deleteShader shader) := by
  intro shader compile buffer report
  refine ⟨?_, ?_, ?_, ?_⟩
  · simp only [createShader, glOk, emit, hok, List.append_assoc, List.singleton_append,
      List.cons_append, List.nil_append, hstatus]
    simp [shader, compile, buffer, report]
  · simp [compile, report, Call.isLoggerPrintf]
  · simp [compile, report, Call.isDeleteShader]
  · simp [compile, report]

theorem createShader_compile_failure_witness :
    (sampleDriver true 0 "0:1: syntax error").ok ([] ++ [Call.ok]) = true
    ∧ createShader (sampleDriver true 0 "0:1: syntax error") GL_VERTEX_SHADER "void main("
        ⟨1, []⟩ =
      (0, ⟨1, [Call.ok, Call.createShader GL_VERTEX_SHADER, Call.shaderSource 2 1 "void main(",
        Call.compileShader 2, Call.getShaderiv 2 GL_COMPILE_STATUS, Call.getShaderInfoLog 2 4096,
        Call.loggerPrintf 1 RETRO_LOG_ERROR "Error in shader: %s" "0:1: syntax error",
        Call.deleteShader 2]⟩) :=
  ⟨rfl, (createShader_compile_failure (sampleDriver true 0 "0:1: syntax error") ⟨1, []⟩
    GL_VERTEX_SHADER "void main(" rfl rfl).1⟩

/-! ## createProgram -/

/-- C4: when `createProgram` passes its entry check, with `vs` and `fs` the handles
returned by its two `createShader` calls, the calls it makes after them are
`createProgram`, the two `attachShader`, `linkProgram`, then `deleteShader vs` and
`deleteShader fs`, then `validateProgram`, `getProgramiv` and a tail without any
`deleteShader`; this for every driver, hence for every link status and every result,
which is either 0 or the program. -/
theorem createProgram_deletes_shaders (d : Driver) (w : World)
    (vertexShader fragmentShader : String) (hok : d.ok (w.trace ++ [Call.ok]) = true) :
    let r1 := createShader d GL_VERTEX_SHADER vertexShader (emit Call.ok w)
    let r2 := createShader d GL_FRAGMENT_SHADER fragmentShader r1.2
    let vs := r1.1
    let fs := r2.1
    let program := d.createProgram (r2.2.trace ++ [Call.createProgram])
    let link := r2.2.trace ++ [Call.createProgram, Call.attachShader program vs,
      Call.attachShader program fs, Call.linkProgram program,
      Call.deleteShader vs, Call.deleteShader fs,
      Call.validateProgram program, Call.getProgramiv program GL_LINK_STATUS]
    let tail :=
      if d.getProgramiv link = GL_FALSE then
        [Call.getProgramInfoLog program 4096,
          Call.loggerPrintf r2.2.s_logger RETRO_LOG_ERROR "Error in shader program: %s"
            (d.getProgramInfoLog (link ++ [Call.getProgramInfoLog program 4096])),
          Call.deleteProgram program]
      else if d.ok (link ++ [Call.ok]) then [Call.ok]
      else [Call.ok, Call.deleteProgram program]
    (createProgram d vertexShader fragmentShader w).2.trace = link ++ tail
    ∧ tail.countP Call.isDeleteShader = 0
    ∧ ((createProgram d vertexShader fragmentShader w).1 = 0
        ∨ (createProgram d vertexShader fragmentShader w).1 = program) := by
  intro r1 r2 vs fs program link tail
  have e : (emit Call.ok w).trace = w.trace ++ [Call.ok] := rfl
  simp only [createProgram, glOk, e, hok, Bool.not_true, Bool.false_eq_true, if_false]
  refine ⟨?_, ?_, ?_⟩
  · simp only [tail, link, program, vs, fs, r2, r1, emit_trace, emit_s_logger,
      List.append_assoc, List.cons_append, List.nil_append, Bool.not_eq_true]
    split_ifs <;> simp_all [emit_trace]
  · simp only [tail]
    split_ifs <;> simp [Call.isDeleteShader]
  · split_ifs
    · exact Or.inl rfl
    · exact Or.inl rfl
    · right
      simp [emit_trace, r1, r2, vs, fs, program]

theorem createProgram_deletes_shaders_witness :
    (sampleDriver true 1 "").ok ([] ++ [Call.ok]) = true
    ∧ (createProgram (sampleDriver true 1 "") "void main();" "void frag();" ⟨1, []⟩).2.trace =
        [Call.ok,
          Call.ok, Call.createShader GL_VERTEX_SHADER, Call.shaderSource 3 1 "void main();",
          Call.compileShader 3, Call.getShaderiv 3 GL_COMPILE_STATUS, Call.ok,
          Call.ok, Call.createShader GL_FRAGMENT_SHADER, Call.shaderSource 9 1 "void frag();",
          Call.compileShader 9, Call.getShaderiv 9 GL_COMPILE_STATUS, Call.ok,
          Call.createProgram, Call.attachShader 14 3, Call.attachShader 14 9,
          Call.linkProgram 14, Call.deleteShader 3, Call.deleteShader 9,
          Call.validateProgram 14, Call.getProgramiv 14 GL_LINK_STATUS, Call.ok] :=
  ⟨rfl, (createProgram_deletes_shaders (sampleDriver true 1 "") ⟨1, []⟩
    "void main();" "void frag();" rfl).1⟩

/-! ## createFramebuffer -/

/-- C9: when `createFramebuffer` passes its entry check, it generates and binds a
framebuffer and attaches the given texture as colour attachment 0; then, if depth and
stencil are both requested, it generates one renderbuffer, gives it
`GL_DEPTH24_STENCIL8` storage of `width` x `height` and attaches it at the depth-stencil
attachment; else if depth is requested, the same with `GL_DEPTH_COMPONENT24` storage at
the depth attachment; otherwise it makes none of these calls; only then comes the
completeness check.  Without depth the out renderbuffer value is 0. -/
theorem createFramebuffer_attachments (d : Driver) (renderbuffer : Nat) (width height : Int)
    (texture : Nat) (depth stencil : Bool) (w : World)
    (hok : d.ok (w.trace ++ [Call.ok]) = true) :
    let framebuffer := d.genFramebuffers (w.trace ++ [Call.ok, Call.genFramebuffers 1])
    let colour := w.trace ++ [Call.ok, Call.genFramebuffers 1,
      Call.bindFramebuffer GL_FRAMEBUFFER framebuffer,
      Call.framebufferTexture2D GL_FRAMEBUFFER GL_COLOR_ATTACHMENT0 GL_TEXTURE_2D texture 0]
    let rb := d.genRenderbuffers (colour ++ [Call.genRenderbuffers 1]) 0
    let storage :=
      if depth && stencil then
        [Call.genRenderbuffers 1, Call.bindRenderbuffer GL_RENDERBUFFER rb,
          Call.renderbufferStorage GL_RENDERBUFFER GL_DEPTH24_STENCIL8 width height,
          Call.framebufferRenderbuffer GL_FRAMEBUFFER GL_DEPTH_STENCIL_ATTACHMENT
            GL_RENDERBUFFER rb,
          Call.bindRenderbuffer GL_RENDERBUFFER 0]
      else if depth then
        [Call.genRenderbuffers 1, Call.bindRenderbuffer GL_RENDERBUFFER rb,
          Call.renderbufferStorage GL_RENDERBUFFER GL_DEPTH_COMPONENT24 width height,
          Call.framebufferRenderbuffer GL_FRAMEBUFFER GL_DEPTH_ATTACHMENT GL_RENDERBUFFER rb,
          Call.bindRenderbuffer GL_RENDERBUFFER 0]
      else []
    let slot := if depth then rb else 0
    let checked := colour ++ storage ++ [Call.checkFramebufferStatus GL_FRAMEBUFFER]
    createFramebuffer d renderbuffer width height texture depth stencil w =
        (if d.checkFramebufferStatus checked ≠ GL_FRAMEBUFFER_COMPLETE then
          (0, 0, { w with trace := checked ++
            [Call.deleteRenderbuffers 1 slot, Call.deleteFramebuffers 1 framebuffer] })
        else
          (framebuffer, slot, { w with trace := checked ++
            [Call.clearColor 0 0 0 1, Call.clear GL_COLOR_BUFFER_BIT,
              Call.bindFramebuffer GL_FRAMEBUFFER 0] }))
    ∧ storage.countP Call.isGenRenderbuffers = (if depth then 1 else 0)
    ∧ (depth = false →
        (createFramebuffer d renderbuffer width height texture depth stencil w).2.1 = 0) := by
  intro framebuffer colour rb storage slot checked
  have e : (emit Call.ok w).trace = w.trace ++ [Call.ok] := rfl
  have main : createFramebuffer d renderbuffer width height texture depth stencil w =
        (if d.checkFramebufferStatus checked ≠ GL_FRAMEBUFFER_COMPLETE then
          (0, 0, { w with trace := checked ++
            [Call.deleteRenderbuffers 1 slot, Call.deleteFramebuffers 1 framebuffer] })
        else
          (framebuffer, slot, { w with trace := checked ++
            [Call.clearColor 0 0 0 1, Call.clear GL_COLOR_BUFFER_BIT,
              Call.bindFramebuffer GL_FRAMEBUFFER 0] })) := by
    simp only [createFramebuffer, glOk, e, hok, Bool.not_true, Bool.false_eq_true, if_false]
    cases depth <;> cases stencil <;>
      simp [emit, checked, storage, slot, rb, colour, framebuffer]
  refine ⟨main, ?_, ?_⟩
  · cases depth <;> cases stencil <;> simp [storage, Call.isGenRenderbuffers]
  · intro hd
    rw [main]
    subst hd
    split_ifs <;> simp [slot]

theorem createFramebuffer_attachments_witness :
    (sampleDriver true 0x8CD5 "").ok ([] ++ [Call.ok]) = true
    ∧ createFramebuffer (sampleDriver true 0x8CD5 "") 9 320 240 3 true false ⟨1, []⟩ =
      (2, 5, ⟨1, [Call.ok, Call.genFramebuffers 1, Call.bindFramebuffer GL_FRAMEBUFFER 2,
        Call.framebufferTexture2D GL_FRAMEBUFFER GL_COLOR_ATTACHMENT0 GL_TEXTURE_2D 3 0,
        Call.genRenderbuffers 1, Call.bindRenderbuffer GL_RENDERBUFFER 5,
        Call.renderbufferStorage GL_RENDERBUFFER GL_DEPTH_COMPONENT24 320 240,
        Call.framebufferRenderbuffer GL_FRAMEBUFFER GL_DEPTH_ATTACHMENT GL_RENDERBUFFER 5,
        Call.bindRenderbuffer GL_RENDERBUFFER 0,
        Call.checkFramebufferStatus GL_FRAMEBUFFER,
        Call.clearColor 0 0 0 1, Call.clear GL_COLOR_BUFFER_BIT,
        Call.bindFramebuffer GL_FRAMEBUFFER 0]⟩) :=
  ⟨rfl, (createFramebuffer_attachments (sampleDriver true 0x8CD5 "") 9 320 240 3 true false
    ⟨1, []⟩ rfl).1⟩

/-! ## destroy -/

/-- C7: for each wrapper and every state, `destroy` leaves the handle 0, and a second
`destroy` right after the first makes no call and changes nothing: the wrapper and
the calls made are those of a single `destroy`. -/
theorem destroy_idempotent :
    (∀ (p : Program) (w : World),
      (p.destroy w).1._program = 0
      ∧ (p.destroy w).1.destroy (p.destroy w).2 = p.destroy w
      ∧ newCalls (p.destroy w).2 ((p.destroy w).1.destroy (p.destroy w).2).2 = [])
    ∧ (∀ (t : Texture) (w : World),
      (t.destroy w).1._texture = 0
      ∧ (t.destroy w).1.destroy (t.destroy w).2 = t.destroy w
      ∧ newCalls (t.destroy w).2 ((t.destroy w).1.destroy (t.destroy w).2).2 = [])
    ∧ (∀ (b : VertexBuffer) (w : World),
      (b.destroy w).1._vbo = 0
      ∧ (b.destroy w).1.destroy (b.destroy w).2 = b.destroy w
      ∧ newCalls (b.destroy w).2 ((b.destroy w).1.destroy (b.destroy w).2).2 = [])
    ∧ (∀ (q : TexturedQuad) (w : World),
      (q.destroy w).1._vbo = 0
      ∧ (q.destroy w).1.destroy (q.destroy w).2 = q.destroy w
      ∧ newCalls (q.destroy w).2 ((q.destroy w).1.destroy (q.destroy w).2).2 = [])
    ∧ (∀ (q : TexturedTriangleBatch) (w : World),
      (q.destroy w).1._vbo = 0
      ∧ (q.destroy w).1.destroy (q.destroy w).2 = q.destroy w
      ∧ newCalls (q.destroy w).2 ((q.destroy w).1.destroy (q.destroy w).2).2 = []) := by
  refine ⟨?_, ?_, ?_, ?_, ?_⟩
  · intro p w
    by_cases h : p._program = 0 <;> simp [Program.destroy, h, newCalls]
  · intro t w
    by_cases h : t._texture = 0 <;> simp [Texture.destroy, h, newCalls]
  · intro b w
    by_cases h : b._vbo = 0 <;> simp [VertexBuffer.destroy, h, newCalls]
  · intro q w
    by_cases h : q._vbo = 0 <;> simp [TexturedQuad.destroy, VertexBuffer.destroy, h, newCalls]
  · intro q w
    by_cases h : q._vbo = 0 <;>
      simp [TexturedTriangleBatch.destroy, VertexBuffer.destroy, h, newCalls]

/-! ## TexturedQuad.init -/

/-- C8: whenever `VertexBuffer::init` succeeds, `TexturedQuad.init(x0, y0, x1, y1, u0,
v0, u1, v1)` returns true after binding the buffer and uploading, as one static-draw
buffer of 4 vertices of 4 floats, the vertices (x0, y0, u0, v1), (x0, y1, u0, v0),
(x1, y0, u1, v1), (x1, y1, u1, v0) in this order; `TexturedQuad.init()` is the instance
(-1, -1, 1, 1, 0, 0, 1, 1), which uploads (-1, -1, 0, 1), (-1, 1, 0, 0), (1, -1, 1, 1),
(1, 1, 1, 0), where the lower y has the higher v. -/
theorem texturedQuad_init_vertices (d : Driver) (q : TexturedQuad) (w : World)
    (hinit : (VertexBuffer.init d q.toVertexBuffer w).1 = true) :
    let r := VertexBuffer.init d q.toVertexBuffer w
    (∀ x0 y0 x1 y1 u0 v0 u1 v1 : GLfloat,
      TexturedQuad.init d q x0 y0 x1 y1 u0 v0 u1 v1 w =
        (true, { q with toVertexBuffer := r.2.1 },
          { r.2.2 with trace := r.2.2.trace ++
            [Call.bindBuffer GL_ARRAY_BUFFER r.2.1._vbo,
              Call.bufferData GL_ARRAY_BUFFER (4 * (4 * 4))
                [⟨x0, y0, u0, v1⟩, ⟨x0, y1, u0, v0⟩, ⟨x1, y0, u1, v1⟩, ⟨x1, y1, u1, v0⟩]
                GL_STATIC_DRAW,
              Call.ok] }))
    ∧ TexturedQuad.initDefault d q w = TexturedQuad.init d q (-1) (-1) 1 1 0 0 1 1 w
    ∧ TexturedQuad.initDefault d q w =
        (true, { q with toVertexBuffer := r.2.1 },
          { r.2.2 with trace := r.2.2.trace ++
            [Call.bindBuffer GL_ARRAY_BUFFER r.2.1._vbo,
              Call.bufferData GL_ARRAY_BUFFER (4 * (4 * 4))
                [⟨-1, -1, 0, 1⟩, ⟨-1, 1, 0, 0⟩, ⟨1, -1, 1, 1⟩, ⟨1, 1, 1, 0⟩]
                GL_STATIC_DRAW,
              Call.ok] })
    ∧ (∀ a ∈ ([⟨-1, -1, 0, 1⟩, ⟨-1, 1, 0, 0⟩, ⟨1, -1, 1, 1⟩, ⟨1, 1, 1, 0⟩] : List Vertex),
        ∀ b ∈ ([⟨-1, -1, 0, 1⟩, ⟨-1, 1, 0, 0⟩, ⟨1, -1, 1, 1⟩, ⟨1, 1, 1, 0⟩] : List Vertex),
          a.y < b.y → b.v < a.v) := by
  intro r
  have main : ∀ x0 y0 x1 y1 u0 v0 u1 v1 : GLfloat,
      TexturedQuad.init d q x0 y0 x1 y1 u0 v0 u1 v1 w =
        (true, { q with toVertexBuffer := r.2.1 },
          { r.2.2 with trace := r.2.2.trace ++
            [Call.bindBuffer GL_ARRAY_BUFFER r.2.1._vbo,
              Call.bufferData GL_ARRAY_BUFFER (4 * (4 * 4))
                [⟨x0, y0, u0, v1⟩, ⟨x0, y1, u0, v0⟩, ⟨x1, y0, u1, v1⟩, ⟨x1, y1, u1, v0⟩]
                GL_STATIC_DRAW,
              Call.ok] }) := by
    intro x0 y0 x1 y1 u0 v0 u1 v1
    simp only [TexturedQuad.init, hinit, Bool.not_true, Bool.false_eq_true, if_false]
    simp [VertexBuffer.setData, glOk, emit, sizeofVertex, r]
  refine ⟨main, rfl, ?_, ?_⟩
  · exact main (-1) (-1) 1 1 0 0 1 1
  · simp only [List.mem_cons, List.mem_singleton, List.not_mem_nil, or_false]
    rintro a (rfl | rfl | rfl | rfl) b (rfl | rfl | rfl | rfl) <;> norm_num

theorem texturedQuad_init_vertices_witness :
    (VertexBuffer.init (sampleDriver true 1 "") (TexturedQuad.mk ⟨0⟩).toVertexBuffer ⟨1, []⟩).1
      = true
    ∧ TexturedQuad.initDefault (sampleDriver true 1 "") (TexturedQuad.mk ⟨0⟩) ⟨1, []⟩ =
      (true, TexturedQuad.mk ⟨1⟩,
        ⟨1, [Call.genBuffers 1, Call.ok, Call.bindBuffer GL_ARRAY_BUFFER 1,
          Call.bufferData GL_ARRAY_BUFFER 64
            [⟨-1, -1, 0, 1⟩, ⟨-1, 1, 0, 0⟩, ⟨1, -1, 1, 1⟩, ⟨1, 1, 1, 0⟩] GL_STATIC_DRAW,
          Call.ok]⟩) :=
  ⟨rfl, (texturedQuad_init_vertices (sampleDriver true 1 "") (TexturedQuad.mk ⟨0⟩) ⟨1, []⟩
    rfl).2.2.1⟩

end GlUtil
